import Mathlib

/-!
Shallow embedding of the blog_v2 web application (Django project, files
`webapp/forms.py` and `webapp/views/article_views.py`).

Modelling conventions:
* Python strings are Lean `String`s; character-level operations
  (`str.split(',')`, `str.strip()`, case-insensitive matching) are defined
  over `List Char` so that the kernel can evaluate them.
* Django `Q` objects are an inductive query AST `Q`; the operators `&` and
  `|` of `Q` drop an empty operand exactly as Django's `Q._combine` does
  (an empty `Q` is falsy and the other side is returned unchanged).
* Querysets are lists of in-memory `Article` records; `filter` keeps each
  matching article once and `.distinct()` is `List.dedup` (SQL row
  multiplication from joins is not modelled, only which articles appear).
* Fallible ORM lookups (`Tag.objects.get`) return `Except DjangoError`;
  the uncaught `DoesNotExist` exception and the `Http404` raised by
  `get_object_or_404` are distinct constructors.
* `ValidationError` raised by `FullSearchForm.clean` is `Except CleanError`
  with one constructor per error code in the source.
-/

deriving instance DecidableEq for Except

namespace Blog

/-- ASCII whitespace, as stripped by Python `str.strip()` on the inputs
that occur here. -/
def isWs (c : Char) : Bool := c == ' ' || c == '\t' || c == '\n' || c == '\r'

/-- Python `str.strip()`: drop leading and trailing whitespace. -/
def stripWs (l : List Char) : List Char :=
  ((l.dropWhile isWs).reverse.dropWhile isWs).reverse

/-- Python `s.split(',')`: split at every comma, keeping empty fragments. -/
def splitComma : List Char → List (List Char)
  | [] => [[]]
  | c :: rest =>
      let r := splitComma rest
      if c = ',' then [] :: r
      else
        match r with
        | [] => [[c]]
        | h :: t => (c :: h) :: t

/-- Whether the first list is an initial segment of the second. -/
def leadsList : List Char → List Char → Bool
  | [], _ => true
  | _ :: _, [] => false
  | a :: as, b :: bs => a == b && leadsList as bs

/-- Whether `needle` occurs as a contiguous run inside the second list. -/
def hasSub (needle : List Char) : List Char → Bool
  | [] => leadsList needle []
  | hay@(_ :: t) => leadsList needle hay || hasSub needle t

/-- Lower-case every character. -/
def lowerL (l : List Char) : List Char := l.map Char.toLower

/-- SQL `icontains`: case-insensitive substring test. -/
def icontains (hay sub : String) : Bool :=
  hasSub (lowerL sub.toList) (lowerL hay.toList)

/-- SQL `iexact`: case-insensitive equality. -/
def iexact (a b : String) : Bool := lowerL a.toList == lowerL b.toList

/-- A comment row: author, text, creation time (`webapp.models.Comment`). -/
structure Comment where
  author : String
  text : String
  created_at : Nat
deriving DecidableEq, Repr

/-- A tag row: primary key and name (`webapp.models.Tag`). -/
structure Tag where
  pk : Nat
  name : String
deriving DecidableEq, Repr

/-- An article row together with its associated tag names and comments
(`webapp.models.Article` plus its relations). -/
structure Article where
  pk : Nat
  title : String
  text : String
  author : String
  created_at : Nat
  tags : List String
  comments : List Comment
deriving DecidableEq, Repr

/-- The database visible to the list view: the article table and the tag
table. -/
structure DB where
  articles : List Article
  tags : List Tag
deriving Repr

/-- Django `Q` expressions used by article_views.py, as an AST. -/
inductive Q where
  | empty : Q
  | qAnd : Q → Q → Q
  | qOr : Q → Q → Q
  | titleIcontains : String → Q
  | textIcontains : String → Q
  | authorIcontains : String → Q
  | authorIexact : String → Q
  | tagsNameIexact : String → Q
  | commentsTextIcontains : String → Q
  | commentsAuthorIexact : String → Q
deriving DecidableEq, Repr

/-- An empty `Q()` is falsy in Python. -/
def Q.isEmptyQ : Q → Bool
  | Q.empty => true
  | _ => false

/-- Django `Q.__and__`: combining with an empty `Q` returns the other
operand unchanged. -/
def qand (a b : Q) : Q :=
  if a.isEmptyQ then b else if b.isEmptyQ then a else Q.qAnd a b

/-- Django `Q.__or__`: combining with an empty `Q` returns the other
operand unchanged. -/
def qor (a b : Q) : Q :=
  if a.isEmptyQ then b else if b.isEmptyQ then a else Q.qOr a b

/-- Evaluate a `Q` filter against one article; `filter(Q())` matches every
row. -/
def Q.eval (a : Article) : Q → Bool
  | Q.empty => true
  | Q.qAnd p r => p.eval a && r.eval a
  | Q.qOr p r => p.eval a || r.eval a
  | Q.titleIcontains s => icontains a.title s
  | Q.textIcontains s => icontains a.text s
  | Q.authorIcontains s => icontains a.author s
  | Q.authorIexact s => iexact a.author s
  | Q.tagsNameIexact s => a.tags.any (fun n => iexact n s)
  | Q.commentsTextIcontains s => a.comments.any (fun c => icontains c.text s)
  | Q.commentsAuthorIexact s => a.comments.any (fun c => iexact c.author s)

/-- The two ways a record lookup can abort a request: the uncaught model
`DoesNotExist` exception (an unhandled server error) and the `Http404`
raised by `get_object_or_404` (a not-found client error). -/
inductive DjangoError where
  | doesNotExist : DjangoError
  | http404 : DjangoError
deriving DecidableEq, Repr

/-- `IndexView.ordering = ['-created_at']` (article_views.py line 16):
article rows come ordered by creation time descending. -/
def createdDesc (a b : Article) : Prop := b.created_at ≤ a.created_at

instance : DecidableRel createdDesc := fun a b => Nat.decLe b.created_at a.created_at

instance : IsTotal Article createdDesc := ⟨fun a b => Nat.le_total b.created_at a.created_at⟩

instance : IsTrans Article createdDesc := ⟨fun _ _ _ hab hbc => Nat.le_trans hbc hab⟩

/-- The ordered base queryset of `IndexView`: a stable sort standing for
the store's ORDER BY on `-created_at`. -/
def sortArticles (l : List Article) : List Article := l.insertionSort createdDesc

/-- The simple-search filter of `IndexView.get_queryset` (article_views.py
lines 36-40): title contains, or author contains, or a tag name equals the
query, all case-insensitively. -/
def simple_search_q (s : String) : Q :=
  qor (qor (Q.titleIcontains s) (Q.authorIcontains s)) (Q.tagsNameIexact s)

/-- Modelled from the spec: `webapp/models.py` is not among the sources.
The spec identifies a Tag by its `name` and reads the list view's tag
filter as "articles having that exact tag", so the `Tag` object
interpolated into `tags__name__iexact` on line 43 stands for its name. -/
def tagStr (t : Tag) : String := t.name

/-- `IndexView.get_queryset` (article_views.py lines 33-45): the
free-text filter is applied when the search query is truthy, and then the
tag filter is applied when the tag parameter is truthy; `Tag.objects.get`
on line 43 raises `DoesNotExist` when no tag row has the given primary
key. An absent or empty request parameter is the falsy `none`. -/
def get_queryset (db : DB) (search_query : Option String) (tag_query : Option Nat) :
    Except DjangoError (List Article) :=
  let queryset := sortArticles db.articles
  let queryset :=
    match search_query with
    | some s =>
        if s ≠ "" then queryset.filter (fun a => Q.eval a (simple_search_q s))
        else queryset
    | none => queryset
  match tag_query with
  | some pk =>
      match db.tags.find? (fun t => t.pk == pk) with
      | none => Except.error DjangoError.doesNotExist
      | some t =>
          Except.ok (queryset.filter (fun a => Q.eval a (Q.tagsNameIexact (tagStr t))))
  | none => Except.ok queryset

/-- Start index of a page slice in `django.core.paginator` (framework
dependency): pages are 1-based windows of `per_page` items. -/
def page_bottom (number per_page : Nat) : Nat := (number - 1) * per_page

/-- End index of a page slice: Django extends the window to the end of
the list when at most `orphans` items would otherwise remain after it. -/
def page_top (count number per_page orphans : Nat) : Nat :=
  if count ≤ page_bottom number per_page + per_page + orphans then count
  else page_bottom number per_page + per_page

/-- The object list of one page, Django's `queryset[bottom:top]`. -/
def page_slice (l : List Article) (number per_page orphans : Nat) : List Article :=
  (l.drop (page_bottom number per_page)).take
    (page_top l.length number per_page orphans - page_bottom number per_page)

/-- `Paginator.num_pages`: the ceiling of `max 1 (count - orphans)`
divided by the page size (one page minimum, empty first page allowed). -/
def num_pages (count per_page orphans : Nat) : Nat :=
  (max 1 (count - orphans) + per_page - 1) / per_page

/-- One GET of `IndexView` with `paginate_by = 5` and
`paginate_orphans = 1` (article_views.py lines 12-24): the requested
page's articles and the page count. -/
def index_page (db : DB) (search_query : Option String) (tag_query : Option Nat)
    (number : Nat) : Except DjangoError (List Article × Nat) :=
  match get_queryset db search_query tag_query with
  | Except.error e => Except.error e
  | Except.ok qs => Except.ok (page_slice qs number 5 1, num_pages qs.length 5 1)

/-- The cleaned field values of `FullSearchForm` (forms.py lines 31-40):
two free-text fields and six scope checkboxes. -/
structure FullSearchData where
  text : String
  in_title : Bool
  in_text : Bool
  in_tags : Bool
  in_comment_text : Bool
  author : String
  article_author : Bool
  comment_author : Bool
deriving DecidableEq, Repr

/-- The three `ValidationError` codes raised by `FullSearchForm.clean`. -/
inductive CleanError where
  | textSearchCriteriaEmpty : CleanError
  | authorSearchCriteriaEmpty : CleanError
  | authorTextSearchCriteriaEmpty : CleanError
deriving DecidableEq, Repr

/-- `FullSearchForm.clean` (forms.py lines 42-64): three sequential
cross-field checks, raising on the first one that fails; a non-empty
string is truthy. -/
def clean (d : FullSearchData) : Except CleanError FullSearchData :=
  if d.text ≠ "" ∧ (d.in_title || d.in_text || d.in_tags || d.in_comment_text) = false then
    Except.error CleanError.textSearchCriteriaEmpty
  else if d.author ≠ "" ∧ (d.article_author || d.comment_author) = false then
    Except.error CleanError.authorSearchCriteriaEmpty
  else if d.author = "" ∧ d.text = "" then
    Except.error CleanError.authorTextSearchCriteriaEmpty
  else Except.ok d

/-- Claim C3: whenever `text` is non-empty and all four text-scope
checkboxes are false, `FullSearchForm.clean` fails with the
`text_search_criteria_empty` error and returns no cleaned data. -/
theorem claim_C3_text_scope_error (d : FullSearchData) (ht : d.text ≠ "")
    (h1 : d.in_title = false) (h2 : d.in_text = false)
    (h3 : d.in_tags = false) (h4 : d.in_comment_text = false) :
    clean d = Except.error CleanError.textSearchCriteriaEmpty := by
  simp [clean, ht, h1, h2, h3, h4]

/-- Witness for C3 at a concrete input. -/
theorem claim_C3_witness :
    clean ⟨"foo", false, false, false, false, "", true, false⟩ =
      Except.error CleanError.textSearchCriteriaEmpty :=
  claim_C3_text_scope_error _ (by decide) rfl rfl rfl rfl

/-- Claim C4: whenever `author` is non-empty and both author-scope
checkboxes are false, validation fails with some error; and because
`clean` raises on the first failing rule, if the text-scope rule is also
violated then the surfaced error is the text-scope one. -/
theorem claim_C4_author_scope_error (d : FullSearchData) (ha : d.author ≠ "")
    (h1 : d.article_author = false) (h2 : d.comment_author = false) :
    (∃ e, clean d = Except.error e) ∧
      (d.text ≠ "" →
        (d.in_title || d.in_text || d.in_tags || d.in_comment_text) = false →
        clean d = Except.error CleanError.textSearchCriteriaEmpty) := by
  constructor
  · unfold clean
    split
    · exact ⟨_, rfl⟩
    · simp [ha, h1, h2]
  · intro ht hflags
    simp [clean, ht, hflags]

/-- Witness for C4 at a concrete input where both rules are violated. -/
theorem claim_C4_witness :
    clean ⟨"x", false, false, false, false, "bob", false, false⟩ =
      Except.error CleanError.textSearchCriteriaEmpty :=
  (claim_C4_author_scope_error _ (by decide) rfl rfl).2 (by decide) rfl

/-- Claim C5: if both `text` and `author` are empty, validation fails with
the `author_text_search_criteria_empty` error; equivalently, validation
succeeds only when at least one of the two fields is non-empty. -/
theorem claim_C5_at_least_one_field (d : FullSearchData) :
    (d.text = "" → d.author = "" →
      clean d = Except.error CleanError.authorTextSearchCriteriaEmpty) ∧
    (∀ d2, clean d = Except.ok d2 → d.text ≠ "" ∨ d.author ≠ "") := by
  constructor
  · intro ht ha
    simp [clean, ht, ha]
  · intro d2 hok
    by_contra hcon
    push_neg at hcon
    obtain ⟨ht, ha⟩ := hcon
    simp [clean, ht, ha] at hok

/-- Witness for C5 at the empty input. -/
theorem claim_C5_witness :
    clean ⟨"", true, true, true, false, "", true, false⟩ =
      Except.error CleanError.authorTextSearchCriteriaEmpty :=
  (claim_C5_at_least_one_field _).1 rfl rfl

/-- `ArticleSearchView.get_text_query` (article_views.py lines 156-170):
start from `Q()` and or-in one clause per selected text scope. -/
def get_text_query (d : FullSearchData) : Q :=
  let query := Q.empty
  let query := if d.in_title then qor query (Q.titleIcontains d.text) else query
  let query := if d.in_text then qor query (Q.textIcontains d.text) else query
  let query := if d.in_tags then qor query (Q.tagsNameIexact d.text) else query
  let query := if d.in_comment_text then qor query (Q.commentsTextIcontains d.text) else query
  query

/-- `ArticleSearchView.get_author_query` (article_views.py lines 172-180). -/
def get_author_query (d : FullSearchData) : Q :=
  let query := Q.empty
  let query := if d.article_author then qor query (Q.authorIexact d.author) else query
  let query := if d.comment_author then qor query (Q.commentsAuthorIexact d.author) else query
  query

/-- The filter built by `ArticleSearchView.form_valid` (article_views.py
lines 143-150): `Q()` and-combined with the text query when `text` is
truthy and with the author query when `author` is truthy. -/
def search_final_query (d : FullSearchData) : Q :=
  let query := Q.empty
  let query := if d.text ≠ "" then qand query (get_text_query d) else query
  let query := if d.author ≠ "" then qand query (get_author_query d) else query
  query

/-- `Article.objects.filter(query).distinct()` (article_views.py line
151) applied to an in-memory article table. -/
def search_results (db : List Article) (d : FullSearchData) : List Article :=
  (db.filter (fun a => Q.eval a (search_final_query d))).dedup

/-- Combining with Django `&` multiplies the truth values even though an
empty operand is dropped syntactically. -/
theorem eval_qand (a : Article) (p r : Q) :
    Q.eval a (qand p r) = (Q.eval a p && Q.eval a r) := by
  cases p <;> cases r <;> simp [qand, Q.isEmptyQ, Q.eval]

/-- The final search filter evaluates to the conjunction of the two
sub-filters, each treated as true when its field is empty. -/
theorem eval_search_final_query (d : FullSearchData) (a : Article) :
    (Q.eval a (search_final_query d) = true) ↔
      ((d.text ≠ "" → Q.eval a (get_text_query d) = true) ∧
       (d.author ≠ "" → Q.eval a (get_author_query d) = true)) := by
  by_cases hx : d.text = "" <;> by_cases hy : d.author = "" <;>
    simp [search_final_query, hx, hy, eval_qand, Q.eval]

/-- Claim C6: for every validated advanced-search input, the article
filter is the text predicate conjoined with the author predicate when
both fields are supplied, and the single supplied predicate otherwise
(the missing side acting as true), and the result list is de-duplicated. -/
theorem claim_C6_final_filter (db : List Article) (d : FullSearchData)
    (hok : clean d = Except.ok d) :
    (search_results db d).Nodup ∧
      ∀ a, a ∈ search_results db d ↔
        (a ∈ db ∧
          (d.text ≠ "" → Q.eval a (get_text_query d) = true) ∧
          (d.author ≠ "" → Q.eval a (get_author_query d) = true)) := by
  refine ⟨List.nodup_dedup _, fun a => ?_⟩
  rw [search_results, List.mem_dedup, List.mem_filter,
    eval_search_final_query]

/-- Concrete advanced-search input: text "foo" in titles only, author
"bob" among article authors. -/
def exSearchD : FullSearchData := ⟨"foo", true, false, false, false, "bob", true, false⟩

/-- Concrete article matching both predicates of `exSearchD`. -/
def artFooBob : Article := ⟨3, "foo stuff", "t", "Bob", 3, [], []⟩

/-- Witness for C6: on a one-article table the matching article is in the
de-duplicated result. -/
theorem claim_C6_witness :
    clean exSearchD = Except.ok exSearchD ∧
      artFooBob ∈ search_results [artFooBob] exSearchD :=
  ⟨rfl,
    ((claim_C6_final_filter [artFooBob] exSearchD rfl).2 artFooBob).mpr
      (by decide)⟩

/-- Claim C7: for a validated input with non-empty `text`, the text query
is the disjunction over exactly the selected scopes, with title and body
and comment text matched as case-insensitive substrings and tag names
matched case-insensitively exactly. -/
theorem claim_C7_text_predicate (d : FullSearchData)
    (hok : clean d = Except.ok d) (ht : d.text ≠ "") (a : Article) :
    Q.eval a (get_text_query d) =
      ((d.in_title && icontains a.title d.text) ||
       (d.in_text && icontains a.text d.text) ||
       (d.in_tags && a.tags.any (fun n => iexact n d.text)) ||
       (d.in_comment_text && a.comments.any (fun c => icontains c.text d.text))) := by
  have hflag : (d.in_title || d.in_text || d.in_tags || d.in_comment_text) = true := by
    by_contra h
    rw [Bool.not_eq_true] at h
    have hc : clean d = Except.error CleanError.textSearchCriteriaEmpty := by
      unfold clean
      rw [if_pos ⟨ht, h⟩]
    rw [hc] at hok
    exact Except.noConfusion hok
  cases h1 : d.in_title <;> cases h2 : d.in_text <;> cases h3 : d.in_tags <;>
      cases h4 : d.in_comment_text <;>
    simp_all [get_text_query, qor, Q.isEmptyQ, Q.eval]

/-- Concrete article whose title contains "foo" case-insensitively. -/
def artFooTitle : Article := ⟨1, "Food", "nothing", "alice", 1, [], []⟩

/-- Concrete article matching "foo" only in body, tags and comments. -/
def artBodyOnly : Article := ⟨2, "bar", "foo inside body", "bob", 2, ["foo"], [⟨"x", "foo", 1⟩]⟩

/-- Concrete advanced-search input: text "foo", title scope only. -/
def dFooTitle : FullSearchData := ⟨"foo", true, false, false, false, "", true, false⟩

/-- Witness for C7: with text "foo" and only the title scope selected,
the title-matching article matches and the article matching only on
body, tags and comments does not. -/
theorem claim_C7_witness :
    Q.eval artFooTitle (get_text_query dFooTitle) = true ∧
      Q.eval artBodyOnly (get_text_query dFooTitle) = false :=
  ⟨(claim_C7_text_predicate dFooTitle rfl (by decide) artFooTitle).trans
      (by decide),
   (claim_C7_text_predicate dFooTitle rfl (by decide) artBodyOnly).trans
      (by decide)⟩

/-- Concrete tag rows for the list-view claims. -/
def tagT1 : Tag := ⟨1, "t1"⟩

/-- Second concrete tag row. -/
def tagT2 : Tag := ⟨2, "t2"⟩

/-- Concrete article matching the free-text query "foo" but not tag 2. -/
def artSearchHit : Article := ⟨1, "foo one", "b", "al", 2, ["t1"], []⟩

/-- Concrete article carrying tag 2 but not matching the query "foo". -/
def artTagHit : Article := ⟨2, "bar", "b", "al", 1, ["t2"], []⟩

/-- Concrete list-view database with two articles and two tags. -/
def exListDB : DB := ⟨[artSearchHit, artTagHit], [tagT1, tagT2]⟩

/-- Counterexample to claim C2: with both a search query and a tag
parameter in one request, `IndexView.get_queryset` composes both filters;
the result is empty, and differs from what either single narrowing path
returns, so it is not the case that at most one filter is applied. -/
theorem claim_C2_counterexample :
    get_queryset exListDB (some "foo") (some 2) = Except.ok [] ∧
      get_queryset exListDB (some "foo") none = Except.ok [artSearchHit] ∧
      get_queryset exListDB none (some 2) = Except.ok [artTagHit] ∧
      get_queryset exListDB none none = Except.ok [artSearchHit, artTagHit] ∧
      get_queryset exListDB (some "foo") (some 2) ≠
        get_queryset exListDB (some "foo") none ∧
      get_queryset exListDB (some "foo") (some 2) ≠
        get_queryset exListDB none (some 2) := by
  decide

/-- Claim C2 as amended: when a request carries both a non-empty search
query and a tag parameter naming an existing tag, the list view applies
both narrowing filters in conjunction (search filter, then tag filter);
only a request with at most one truthy parameter uses a single path. -/
theorem claim_C2_amended_both_filters (db : DB) (s : String) (pk : Nat) (t : Tag)
    (hs : s ≠ "") (ht : db.tags.find? (fun x => x.pk == pk) = some t) :
    ∃ l, get_queryset db (some s) (some pk) = Except.ok l ∧
      ∀ a, a ∈ l ↔
        (a ∈ db.articles ∧ Q.eval a (simple_search_q s) = true ∧
          Q.eval a (Q.tagsNameIexact (tagStr t)) = true) := by
  have h : get_queryset db (some s) (some pk) =
      Except.ok (((sortArticles db.articles).filter
          (fun a => Q.eval a (simple_search_q s))).filter
        (fun a => Q.eval a (Q.tagsNameIexact (tagStr t)))) := by
    simp [get_queryset, hs, ht]
  refine ⟨_, h, fun a => ?_⟩
  simp only [List.mem_filter, sortArticles, List.mem_insertionSort, and_assoc]

/-- Witness for the amended C2 at the concrete two-article database. -/
theorem claim_C2_amended_witness :
    ∃ l, get_queryset exListDB (some "foo") (some 2) = Except.ok l ∧
      ∀ a, a ∈ l ↔
        (a ∈ exListDB.articles ∧ Q.eval a (simple_search_q "foo") = true ∧
          Q.eval a (Q.tagsNameIexact (tagStr tagT2)) = true) :=
  claim_C2_amended_both_filters exListDB "foo" 2 tagT2 (by decide) rfl

/-- Claim C9: with six articles and no query, page 1 of the list view is
the whole article set ordered by creation time descending, and the page
count is 1 (page size 5, orphan threshold 1 merges the trailing single
item). -/
theorem claim_C9_pagination (arts : List Article) (tagTable : List Tag)
    (h6 : arts.length = 6) :
    index_page ⟨arts, tagTable⟩ none none 1 = Except.ok (sortArticles arts, 1) ∧
      (sortArticles arts).length = 6 ∧
      (∀ a, a ∈ sortArticles arts ↔ a ∈ arts) ∧
      List.Sorted createdDesc (sortArticles arts) := by
  have hlen : (sortArticles arts).length = 6 := by
    rw [sortArticles, List.length_insertionSort, h6]
  refine ⟨?_, hlen, fun a => List.mem_insertionSort createdDesc,
    List.sorted_insertionSort createdDesc arts⟩
  have hq : get_queryset ⟨arts, tagTable⟩ none none = Except.ok (sortArticles arts) := rfl
  have hps : page_slice (sortArticles arts) 1 5 1 = sortArticles arts := by
    simp only [page_slice, page_top, page_bottom, hlen]
    norm_num
    exact le_of_eq hlen
  have hnp : num_pages (sortArticles arts).length 5 1 = 1 := by
    rw [hlen]
    decide
  simp only [index_page, hq, hps, hnp]

/-- Six concrete articles with distinct creation times. -/
def arts6 : List Article :=
  [⟨1, "t1", "b", "u", 3, [], []⟩, ⟨2, "t2", "b", "u", 6, [], []⟩,
   ⟨3, "t3", "b", "u", 1, [], []⟩, ⟨4, "t4", "b", "u", 5, [], []⟩,
   ⟨5, "t5", "b", "u", 2, [], []⟩, ⟨6, "t6", "b", "u", 4, [], []⟩]

/-- Witness for C9 at six concrete articles. -/
theorem claim_C9_witness :
    index_page ⟨arts6, []⟩ none none 1 = Except.ok (sortArticles arts6, 1) ∧
      (sortArticles arts6).length = 6 :=
  ⟨(claim_C9_pagination arts6 [] rfl).1, (claim_C9_pagination arts6 [] rfl).2.1⟩

/-- Claim C10: when the `tag` parameter is present but no tag row has
that primary key, `IndexView.get_queryset` aborts with the uncaught
`DoesNotExist` error, not with the not-found client error. -/
theorem claim_C10_missing_tag_error (db : DB) (search_query : Option String)
    (pk : Nat) (hmiss : db.tags.find? (fun t => t.pk == pk) = none) :
    get_queryset db search_query (some pk) = Except.error DjangoError.doesNotExist ∧
      get_queryset db search_query (some pk) ≠ Except.error DjangoError.http404 := by
  have h : get_queryset db search_query (some pk) =
      Except.error DjangoError.doesNotExist := by
    simp [get_queryset, hmiss]
  refine ⟨h, ?_⟩
  rw [h]
  intro hc
  exact DjangoError.noConfusion (Except.error.inj hc)

/-- Witness for C10: a database whose tag table is empty. -/
theorem claim_C10_witness :
    get_queryset ⟨[artFooTitle], []⟩ none (some 1) =
      Except.error DjangoError.doesNotExist :=
  (claim_C10_missing_tag_error ⟨[artFooTitle], []⟩ none 1 rfl).1

/-- `Tag.objects.get_or_create(name=...)`: the tag table (here, the list
of existing tag names) extended when the name is not yet present. -/
def get_or_create (table : List String) (name : String) : List String :=
  if table.contains name then table else table ++ [name]

/-- `article.tags.add(tag)`: a many-to-many add has set semantics, so a
name already associated with the article is not added again. -/
def tags_add (artTags : List String) (name : String) : List String :=
  if artTags.contains name then artTags else artTags ++ [name]

/-- The tag loop shared by `ArticleCreateView.form_valid` (article_views.py
lines 90-94) and `ArticleUpdateView.form_valid` (lines 121-125): split the
raw string on commas, strip each piece, get-or-create a tag of that name
(empty names included, there is no skip) and associate it with the
article; returns the tag table and the article's tag list. -/
def apply_tag_string (raw : String) (table artTags : List String) :
    List String × List String :=
  (splitComma raw.toList).foldl
    (fun st piece =>
      let name := (stripWs piece).asString
      (get_or_create st.1 name, tags_add st.2 name))
    (table, artTags)

/-- `ArticleCreateView.form_valid`: a freshly created article starts with
no tag associations. -/
def create_article_tags (table : List String) (raw : String) :
    List String × List String :=
  apply_tag_string raw table []

/-- `article.tags.clear()` (article_views.py line 119): every existing
tag association of the article is removed. -/
def tags_clear (artTags : List String) : List String :=
  match artTags with
  | _ => []

/-- `ArticleUpdateView.form_valid`: `article.tags.clear()` first, then the
same loop as on create. -/
def update_article_tags (table artTags : List String) (raw : String) :
    List String × List String :=
  apply_tag_string raw table (tags_clear artTags)

/-- Claim C1 fails on the code: for the tag string "a, b ,, b" on create,
the empty fragment between the consecutive commas is stripped but not
skipped, so a tag with the empty name is created and associated; the
article ends with three associated tags, not two. -/
theorem claim_C1_empty_tag_created :
    create_article_tags [] "a, b ,, b" = (["a", "b", ""], ["a", "b", ""]) ∧
      "" ∈ (create_article_tags [] "a, b ,, b").2 := by
  decide

/-- Claim C8: the update view's tag handling ignores the article's prior
tag set entirely (clear before re-adding, replace not merge); in
particular an article previously tagged with x and y ends with exactly
the tag z after an update with tag string "z". -/
theorem claim_C8_update_replaces_tags (table oldTags : List String) :
    (∀ raw, update_article_tags table oldTags raw =
        update_article_tags table [] raw) ∧
      (update_article_tags table ["x", "y"] "z").2 = ["z"] := by
  constructor
  · intro raw
    rfl
  · have hsplit : splitComma ['z'] = [['z']] := by decide
    have hname : ((stripWs ['z']).asString) = "z" := by decide
    simp [update_article_tags, apply_tag_string, hsplit, hname, tags_add, tags_clear]

end Blog
